import Mathlib

/-!
Verification of the incident-grid filter / sort / paginate core found in
`src/js/app.js` (current revision) and `src/unnamed/part_000` (an earlier
revision of the same file).  The JavaScript modules are embedded shallowly:
each module-level singleton (DataManager, SelectionManager, SortingManager,
FilterManager, DropdownFilterManager, PaginationManager) becomes a state
type plus pure functions that take and return that state.  DOM rendering,
logging and network collaborators are out of scope, exactly as the code's
pipeline functions treat them (they only consume the computed page).
-/

set_option maxHeartbeats 1000000

/-! ## JavaScript string primitives

JS compares strings with `<` / `>` lexicographically by code unit; on the
basic multilingual plane this is lexicographic comparison of the character
sequences, modelled on `List Char`.  `String.toLowerCase` is modelled
per-character with `Char.toLower` (exact for the ASCII data this grid
holds), and `String.prototype.includes` as contiguous-sublist search.
All definitions are structural so that they evaluate inside `decide`.
-/

/-- Lexicographic strict comparison of char lists, as JS `a < b` on strings:
the left list is smaller iff at the first differing position its char is
smaller, or it is a proper initial segment of the right list. -/
def charLt : List Char → List Char → Bool
  | _, [] => false
  | [], _ :: _ => true
  | a :: as, b :: bs => if a < b then true else if b < a then false else charLt as bs

/-- JS `s < t` on strings. -/
def jsLt (s t : String) : Bool :=
  charLt s.data t.data

/-- JS `s.toLowerCase()` (per-character, exact on ASCII). -/
def jsToLower (s : String) : String :=
  ⟨s.data.map Char.toLower⟩

/-- Whether the first list begins with the second list. -/
def listStartsWith : List Char → List Char → Bool
  | _, [] => true
  | [], _ :: _ => false
  | h :: hs, p :: ps => h == p && listStartsWith hs ps

/-- Whether the pattern (first argument) occurs contiguously inside the
second list. -/
def listContainsSub (pat : List Char) : List Char → Bool
  | [] => listStartsWith [] pat
  | h :: t => listStartsWith (h :: t) pat || listContainsSub pat t

/-- JS `hay.includes(pat)`. -/
def strIncludes (hay pat : String) : Bool :=
  listContainsSub pat.data hay.data

/-! ## Data model

The record shape produced by `transformServerData` and held by
`DataManager` in `src/js/app.js`.  In the running code `pk` holds the raw
`pk` object from the server; only its stringification ever matters to the
filter/sort pipeline, so it is modelled as a string. -/

structure Record where
  id : String
  pk : String
  owner : String
  status : String
  masterIncident : String
  exception : String
  comment : String
  bd_table : String
  bd_table_attr : String
  checked : Bool
deriving DecidableEq

/-- A JS update object passed to `DataManager.update` / `bulkUpdate`:
a partial record, merged with `{ ...item, ...updates }`.  `none` models a
key that is absent from the update object. -/
structure Patch where
  id : Option String := none
  pk : Option String := none
  owner : Option String := none
  status : Option String := none
  masterIncident : Option String := none
  exception : Option String := none
  comment : Option String := none
  bd_table : Option String := none
  bd_table_attr : Option String := none
  checked : Option Bool := none
deriving DecidableEq

/-- JS object spread `{ ...item, ...updates }`: every key present in the
update object overrides the record's field. -/
def mergePatch (r : Record) (p : Patch) : Record :=
  { id := p.id.getD r.id
    pk := p.pk.getD r.pk
    owner := p.owner.getD r.owner
    status := p.status.getD r.status
    masterIncident := p.masterIncident.getD r.masterIncident
    exception := p.exception.getD r.exception
    comment := p.comment.getD r.comment
    bd_table := p.bd_table.getD r.bd_table
    bd_table_attr := p.bd_table_attr.getD r.bd_table_attr
    checked := p.checked.getD r.checked }

namespace DataManager

/-- `DataManager.update(id, updates)` from `src/js/app.js` lines 97-104:
`findIndex` locates the first record whose `id` matches; if found, that
record is replaced by the spread-merge and subscribers are notified.
Returns the new list together with whether `notify()` ran. -/
def update : List Record → String → Patch → List Record × Bool
  | [], _, _ => ([], false)
  | r :: rs, anId, p =>
    if r.id == anId then (mergePatch r p :: rs, true)
    else
      let rest := update rs anId p
      (r :: rest.1, rest.2)

/-- `DataManager.bulkUpdate(ids, updates)` from `src/js/app.js` lines
106-112: maps over the list, merging the patch into every record whose id
is contained in `ids`; `notify()` runs unconditionally. -/
def bulkUpdate (incidents : List Record) (ids : List String) (p : Patch) :
    List Record × Bool :=
  (incidents.map fun r => if ids.contains r.id then mergePatch r p else r, true)

end DataManager

/-! ## Selection store -/

/-- The `selectedIds` JS `Set`, modelled as its membership list in
insertion order. -/
structure SelectionState where
  selectedIds : List String
deriving DecidableEq

namespace SelectionManager

/-- JS `Set.add`, preserving insertion order. -/
def setAdd (l : List String) (anId : String) : List String :=
  if l.contains anId then l else l ++ [anId]

/-- `SelectionManager.toggle(id)` from `src/js/app.js` lines 145-156. -/
def toggle (st : SelectionState) (anId : String) : SelectionState :=
  if st.selectedIds.contains anId then
    ⟨st.selectedIds.filter fun x => !(x == anId)⟩
  else ⟨setAdd st.selectedIds anId⟩

/-- `SelectionManager.setAll(ids, selected)` from `src/js/app.js` lines
158-167: the true branch adds every given id; the false branch calls
`selectedIds.clear()`, ignoring `ids` entirely. -/
def setAll (st : SelectionState) (ids : List String) (selected : Bool) :
    SelectionState :=
  if selected then ⟨ids.foldl setAdd st.selectedIds⟩
  else ⟨[]⟩

/-- `SelectionManager.clear()`. -/
def clear (_ : SelectionState) : SelectionState :=
  ⟨[]⟩

/-- `SelectionManager.getSelected()`: a copy of the set. -/
def getSelected (st : SelectionState) : List String :=
  st.selectedIds

end SelectionManager

/-! ## Sorting -/

/-- The `currentSort` state of `SortingManager`: `index` is the active
column index (`null` modelled as `none`) and `asc` the direction. -/
structure SortState where
  index : Option Int
  asc : Bool
deriving DecidableEq

/-- Lookup in the `columns` array
`[pk, owner, exception, status, bd_table, bd_table_attr, comment]`
at position `i - 1`, then the stringified field with a missing value
replaced by the empty string: an out-of-range index
yields an `undefined` key and hence the empty string. -/
def columnsGet (i : Int) (r : Record) : String :=
  match i with
  | 1 => r.pk
  | 2 => r.owner
  | 3 => r.exception
  | 4 => r.status
  | 5 => r.bd_table
  | 6 => r.bd_table_attr
  | 7 => r.comment
  | _ => ""

/-- The sort key (stringified column value, lower-cased) used by
`SortingManager.sort`; a `null` column index makes `columns[null - 1]`
`undefined`, so every record keys to the empty string. -/
def sortKey (columnIndex : Option Int) (r : Record) : String :=
  match columnIndex with
  | none => jsToLower ("")
  | some i => jsToLower (columnsGet i r)

/-- The JS comparator as a boolean total preorder: the comparator returns
`≤ 0` for `(a, b)` iff the key of `b` is not strictly below the key of
`a` (ascending),
or symmetrically for descending. -/
def jsSortRel (asc : Bool) (key : Record → String) (a b : Record) : Bool :=
  if asc then !jsLt (key b) (key a) else !jsLt (key a) (key b)

/-- `[...data].sort(comparator)`: ECMAScript `Array.prototype.sort` must
return a stable permutation sorted w.r.t. the (consistent) comparator,
which determines the output uniquely; it is modelled by stable insertion
sort. -/
def jsStableSortBy (asc : Bool) (key : Record → String) (data : List Record) :
    List Record :=
  data.insertionSort fun a b => jsSortRel asc key a b = true

namespace SortingManager

/-- `SortingManager.sort(data, columnIndex)` from `src/js/app.js` lines
478-503: first mutates `currentSort` (same column: flip `asc`; different
column: select it ascending), then sorts a copy of `data` by the
lower-cased stringified column value in the updated direction.  Returns
the sorted list and the updated state. -/
def sort (st : SortState) (data : List Record) (columnIndex : Option Int) :
    List Record × SortState :=
  let st2 : SortState :=
    if st.index == columnIndex then { index := st.index, asc := !st.asc }
    else { index := columnIndex, asc := true }
  (jsStableSortBy st2.asc (sortKey columnIndex) data, st2)

end SortingManager

/-! ## Filtering -/

/-- The three `Set`s held by `DropdownFilterManager.filters` for columns
2 (owner), 3 (exception) and 4 (status), modelled by membership lists. -/
structure DropdownFilters where
  owner : List String
  exception : List String
  status : List String
deriving DecidableEq

namespace DropdownFilterManager

/-- `DropdownFilterManager.applyToData(data)` from `src/js/app.js` lines
1187-1214: for each of the columns 2, 3, 4 in order, if that column's
selected-value set is non-empty, keep only records whose (stringified)
field value is a member of the set. -/
def applyToData (df : DropdownFilters) (data : List Record) : List Record :=
  let d2 := if df.owner.isEmpty then data
    else data.filter fun r => df.owner.contains r.owner
  let d3 := if df.exception.isEmpty then d2
    else d2.filter fun r => df.exception.contains r.exception
  if df.status.isEmpty then d3
  else d3.filter fun r => df.status.contains r.status

end DropdownFilterManager

namespace FilterManager

/-- `FilterManager.apply(data)` from `src/js/app.js` lines 538-572: first
the dropdown set filters run, then the stored text filters — but only the
entries whose column key is 1 or 7 — are conjoined over the
lower-cased stringified field values with `includes`.  The text-filter
store is an object keyed by column index, modelled as an association
list. -/
def apply (textFilters : List (Int × String)) (df : DropdownFilters)
    (data : List Record) : List Record :=
  let filteredData := DropdownFilterManager.applyToData df data
  let activeFilters := textFilters.filter fun p => p.1 == 1 || p.1 == 7
  if activeFilters.isEmpty then filteredData
  else
    filteredData.filter fun r =>
      activeFilters.all fun p => strIncludes (jsToLower (columnsGet p.1 r)) p.2

end FilterManager

/-- Single-pass membership predicate for the dropdown stage: a record
passes iff for each of the three columns the selected set is empty or
contains the record's value. -/
def dropdownPasses (df : DropdownFilters) (r : Record) : Bool :=
  (df.owner.isEmpty || df.owner.contains r.owner) &&
  (df.exception.isEmpty || df.exception.contains r.exception) &&
  (df.status.isEmpty || df.status.contains r.status)

/-- Single-pass predicate for the text stage as the code applies it: all
stored text filters whose column key is 1 or 7 must match. -/
def textPasses (textFilters : List (Int × String)) (r : Record) : Bool :=
  (textFilters.filter fun p => p.1 == 1 || p.1 == 7).all fun p =>
    strIncludes (jsToLower (columnsGet p.1 r)) p.2

/-! ## Pagination -/

/-- `CONFIG.PAGINATION.ITEMS_PER_PAGE`. -/
def itemsPerPage : Nat := 20

/-- The `PaginationManager` module state (`itemsPerPage` is a session
constant and never reassigned). -/
structure PagState where
  currentPage : Int
  totalItems : Nat
deriving DecidableEq

namespace PaginationManager

/-- `PaginationManager.init(total)`: stores the total and resets to
page 1. -/
def init (total : Nat) : PagState :=
  { currentPage := 1, totalItems := total }

/-- `Math.ceil(totalItems / itemsPerPage) || 1`: ceiling division, with a
zero result replaced by 1. -/
def getTotalPages (s : PagState) : Nat :=
  let p := (s.totalItems + itemsPerPage - 1) / itemsPerPage
  if p = 0 then 1 else p

/-- `PaginationManager.setPage(page)` from `src/js/app.js` lines
1238-1243: `Math.max(1, Math.min(page, getTotalPages()))`, stored and
returned. -/
def setPage (s : PagState) (page : Int) : PagState × Int :=
  let newPage := max 1 (min page (getTotalPages s : Int))
  ({ s with currentPage := newPage }, newPage)

/-- `PaginationManager.getPageData(data)`: the
`[(page-1)*size, page*size)` slice.  `currentPage ≥ 1` in every reachable
state, so the JS `slice` start index is the non-negative number taken
here. -/
def getPageData (s : PagState) (data : List Record) : List Record :=
  (data.drop ((s.currentPage - 1) * (itemsPerPage : Int)).toNat).take itemsPerPage

/-- The record returned by `PaginationManager.getPaginationInfo()`. -/
structure PageInfo where
  currentPage : Int
  totalPages : Nat
  totalItems : Nat
  startItem : Int
  endItem : Int
  hasPrev : Bool
  hasNext : Bool
deriving DecidableEq

/-- `PaginationManager.getPaginationInfo()` from `src/js/app.js` lines
1275-1292. -/
def getPaginationInfo (s : PagState) : PageInfo :=
  let totalPages := getTotalPages s
  let startItem := (s.currentPage - 1) * (itemsPerPage : Int) + 1
  let endItem := min (s.currentPage * (itemsPerPage : Int)) (s.totalItems : Int)
  { currentPage := s.currentPage
    totalPages := totalPages
    totalItems := s.totalItems
    startItem := if 0 < s.totalItems then startItem else 0
    endItem := if 0 < s.totalItems then endItem else 0
    hasPrev := decide (1 < s.currentPage)
    hasNext := decide (s.currentPage < (totalPages : Int)) }

end PaginationManager

/-! ## Server data transform -/

/-- A raw server record as consumed by `transformServerData`; `none`
models an absent (or `undefined`/`null`) field.  The `pk` payload is
modelled by its string content. -/
structure RawItem where
  incident_record_id : Option String
  id : Option String
  pk : Option String
  executor_name : Option String
  owner : Option String
  status : Option String
  master_incident_id : Option String
  exception : Option String
  comment : Option String
  bd_table : Option String
  bd_table_attr : Option String
deriving DecidableEq

/-- JS truthiness of a possibly-absent string: absent and empty are
falsy. -/
def jsTruthy (o : Option String) : Bool :=
  match o with
  | none => false
  | some s => !(s == "")

/-- JS `x || d` for a possibly-absent string `x`. -/
def jsOrElse (o : Option String) (d : String) : String :=
  if jsTruthy o then o.getD d else d

/-- The per-item transform of `transformServerData` in `src/js/app.js`
lines 240-262.  `fresh` stands for the dynamically generated
`Date.now() + Math.random()` fallback id; the locally computed
`Object.values(rawPk)[0]` in the source is dead code and is omitted. -/
def transformItem (fresh : String) (item : RawItem) : Record :=
  { id :=
      if jsTruthy item.incident_record_id then item.incident_record_id.getD ("")
      else if jsTruthy item.id then item.id.getD ("") else fresh
    pk := jsOrElse item.pk ("")
    owner :=
      if jsTruthy item.executor_name then item.executor_name.getD ("")
      else jsOrElse item.owner ("")
    status := jsOrElse item.status ("")
    masterIncident := jsOrElse item.master_incident_id ("")
    exception := jsOrElse item.exception ("")
    comment := jsOrElse item.comment ("")
    bd_table := jsOrElse item.bd_table ("")
    bd_table_attr := jsOrElse item.bd_table_attr ("")
    checked := false }

/-- `transformServerData` of `src/js/app.js` over a list of raw items. -/
def transformServerData (fresh : String) (serverData : List RawItem) :
    List Record :=
  serverData.map (transformItem fresh)

/-- The record shape of the earlier revision `src/unnamed/part_000`
(no `pk` field). -/
structure Record0 where
  id : String
  owner : String
  status : String
  masterIncident : String
  exception : String
  comment : String
  bd_table : String
  bd_table_attr : String
  checked : Bool
deriving DecidableEq

/-- The per-item transform of `transformServerData` in
`src/unnamed/part_000` lines 200-212: `exception` is empty when `status`
is truthy and `NO` otherwise; `comment`, `bd_table`, `bd_table_attr`
are always empty. -/
def transformItemV0 (item : RawItem) : Record0 :=
  { id := jsOrElse item.pk ("")
    owner := jsOrElse item.executor_name ("")
    status := jsOrElse item.status ("")
    masterIncident := jsOrElse item.master_incident_id ("")
    exception := if jsTruthy item.status then ("") else ("NO")
    comment := ""
    bd_table := ""
    bd_table_attr := ""
    checked := false }

/-! ## Pipeline orchestrator -/

/-- The module-level state read and written by
`EventHandlers.applyFiltersAndUpdate`. -/
structure AppState where
  records : List Record
  textFilters : List (Int × String)
  dropdown : DropdownFilters
  sortState : SortState
  pag : PagState
deriving DecidableEq

namespace EventHandlers

/-- `EventHandlers.applyFiltersAndUpdate()` from `src/js/app.js` lines
1821-1833: filter the full store contents, sort by the currently active
sort column via `SortingManager.sort(filtered, SortingManager.getState().index)`,
re-initialize pagination with the sorted length, and slice out the page
that is handed to the rendering collaborator.  Returns the displayed page
and the updated module state. -/
def applyFiltersAndUpdate (st : AppState) : List Record × AppState :=
  let filtered := FilterManager.apply st.textFilters st.dropdown st.records
  let sortRes := SortingManager.sort st.sortState filtered st.sortState.index
  let pag2 := PaginationManager.init sortRes.1.length
  let pageData := PaginationManager.getPageData pag2 sortRes.1
  (pageData, { st with sortState := sortRes.2, pag := pag2 })

end EventHandlers

/-! ## Concrete data used by witnesses and counterexamples -/

/-- A record with all fields empty. -/
def blankRecord : Record :=
  ⟨"", "", "", "", "", "", "", "", "", false⟩

/-- Record with id `A`, owner `a`. -/
def recA : Record :=
  { blankRecord with id := "A", owner := "a" }

/-- Record with id `B`, owner `b`. -/
def recB : Record :=
  { blankRecord with id := "B", owner := "b" }

/-- A raw server item with every field absent. -/
def emptyRawItem : RawItem :=
  ⟨none, none, none, none, none, none, none, none, none, none, none⟩

/-- An update object that sets `id` to `B`. -/
def patchNewId : Patch :=
  { id := some ("B") }

/-- Pipeline state: two records, no filters, owner column (2) actively
sorted ascending, page 1. -/
def pipelineDemoState : AppState :=
  { records := [recA, recB]
    textFilters := []
    dropdown := ⟨[], [], []⟩
    sortState := { index := some 2, asc := true }
    pag := { currentPage := 1, totalItems := 2 } }

/-! ## Order facts about the JS string comparison -/

theorem charLt_irrefl : ∀ l : List Char, charLt l l = false
  | [] => rfl
  | a :: as => by
    simp only [charLt]
    rw [if_neg (lt_irrefl a), if_neg (lt_irrefl a)]
    exact charLt_irrefl as

theorem charLt_asymm : ∀ l m : List Char, charLt l m = true → charLt m l = false
  | _, [], h => by simp [charLt] at h
  | [], _ :: _, _ => rfl
  | a :: as, b :: bs, h => by
    simp only [charLt] at h ⊢
    rcases lt_trichotomy a b with hab | hab | hab
    · rw [if_neg (lt_asymm hab), if_pos hab]
    · subst hab
      rw [if_neg (lt_irrefl a), if_neg (lt_irrefl a)] at h ⊢
      exact charLt_asymm as bs h
    · rw [if_neg (lt_asymm hab), if_pos hab] at h
      exact absurd h (by simp)

theorem charLt_trans :
    ∀ l m n : List Char, charLt l m = true → charLt m n = true → charLt l n = true
  | _, m, [], _, h2 => by simp [charLt] at h2
  | _, [], _ :: _, h1, _ => by simp [charLt] at h1
  | [], _ :: _, _ :: _, _, _ => rfl
  | a :: as, b :: bs, c :: cs, h1, h2 => by
    simp only [charLt] at h1 h2 ⊢
    rcases lt_trichotomy a b with hab | hab | hab
    · rcases lt_trichotomy b c with hbc | hbc | hbc
      · rw [if_pos (lt_trans hab hbc)]
      · subst hbc; rw [if_pos hab]
      · rw [if_neg (lt_asymm hbc), if_pos hbc] at h2
        exact absurd h2 (by simp)
    · subst hab
      rcases lt_trichotomy a c with hac | hac | hac
      · rw [if_pos hac]
      · subst hac
        rw [if_neg (lt_irrefl a), if_neg (lt_irrefl a)] at h1 h2 ⊢
        exact charLt_trans as bs cs h1 h2
      · rw [if_neg (lt_asymm hac), if_pos hac] at h2
        exact absurd h2 (by simp)
    · rw [if_neg (lt_asymm hab), if_pos hab] at h1
      exact absurd h1 (by simp)

theorem charLt_connex :
    ∀ l m : List Char, charLt l m = false → charLt m l = false → l = m
  | [], [], _, _ => rfl
  | [], _ :: _, h1, _ => by simp [charLt] at h1
  | _ :: _, [], _, h2 => by simp [charLt] at h2
  | a :: as, b :: bs, h1, h2 => by
    simp only [charLt] at h1 h2
    rcases lt_trichotomy a b with hab | hab | hab
    · rw [if_pos hab] at h1
      exact absurd h1 (by simp)
    · subst hab
      rw [if_neg (lt_irrefl a), if_neg (lt_irrefl a)] at h1 h2
      rw [charLt_connex as bs h1 h2]
    · rw [if_pos hab] at h2
      exact absurd h2 (by simp)

theorem string_data_inj {s t : String} (h : s.data = t.data) : s = t := by
  cases s; cases t
  exact congrArg String.mk h

theorem jsSortRel_false_eq (key : Record → String) (a b : Record) :
    jsSortRel false key a b = !jsLt (key a) (key b) := rfl

theorem jsSortRel_true_eq (key : Record → String) (a b : Record) :
    jsSortRel true key a b = !jsLt (key b) (key a) := rfl

theorem jsLt_neg_trans {s t u : String} (h1 : jsLt s t = false)
    (h2 : jsLt t u = false) : jsLt s u = false := by
  unfold jsLt at h1 h2 ⊢
  by_cases h : charLt s.data u.data = true
  · by_cases hts : charLt t.data s.data = true
    · exact absurd (charLt_trans _ _ _ hts h) (by simp [h2])
    · have hst : s.data = t.data :=
        charLt_connex _ _ h1 (Bool.eq_false_iff.mpr hts)
      rw [hst] at h
      exact absurd h (by simp [h2])
  · exact Bool.eq_false_iff.mpr h

theorem jsLt_total_false (s t : String) : jsLt s t = false ∨ jsLt t s = false := by
  by_cases hst : jsLt s t = true
  · exact Or.inr (charLt_asymm _ _ hst)
  · exact Or.inl (Bool.eq_false_iff.mpr hst)

theorem jsSortRel_total (asc : Bool) (key : Record → String) (a b : Record) :
    jsSortRel asc key a b = true ∨ jsSortRel asc key b a = true := by
  cases asc
  · rw [jsSortRel_false_eq, jsSortRel_false_eq]
    simp only [Bool.not_eq_true']
    exact jsLt_total_false _ _
  · rw [jsSortRel_true_eq, jsSortRel_true_eq]
    simp only [Bool.not_eq_true']
    exact (jsLt_total_false _ _).symm

theorem jsSortRel_trans (asc : Bool) (key : Record → String) (a b c : Record)
    (h1 : jsSortRel asc key a b = true) (h2 : jsSortRel asc key b c = true) :
    jsSortRel asc key a c = true := by
  cases asc
  · rw [jsSortRel_false_eq] at h1 h2 ⊢
    simp only [Bool.not_eq_true'] at h1 h2 ⊢
    exact jsLt_neg_trans h1 h2
  · rw [jsSortRel_true_eq] at h1 h2 ⊢
    simp only [Bool.not_eq_true'] at h1 h2 ⊢
    exact jsLt_neg_trans h2 h1

theorem jsSortRel_key_eq (asc : Bool) (key : Record → String) (a b : Record)
    (h1 : jsSortRel asc key a b = true) (h2 : jsSortRel asc key b a = true) :
    key a = key b := by
  cases asc
  · rw [jsSortRel_false_eq] at h1 h2
    simp only [Bool.not_eq_true'] at h1 h2
    exact string_data_inj (charLt_connex _ _ h1 h2)
  · rw [jsSortRel_true_eq] at h1 h2
    simp only [Bool.not_eq_true'] at h1 h2
    exact string_data_inj (charLt_connex _ _ h2 h1)

theorem jsSortRel_flip (asc : Bool) (key : Record → String) (a b : Record) :
    jsSortRel (!asc) key a b = jsSortRel asc key b a := by
  cases asc <;> rfl

theorem pairwise_of_rel_total {α : Type} {R : α → α → Prop} (h : ∀ a b, R a b) :
    ∀ l : List α, l.Pairwise R
  | [] => List.Pairwise.nil
  | a :: t => List.Pairwise.cons (fun b _ => h a b) (pairwise_of_rel_total h t)

theorem jsStableSortBy_flip_reverse (asc : Bool) (key : Record → String)
    (l : List Record) (hd : l.Pairwise fun a b => key a ≠ key b) :
    jsStableSortBy (!asc) key (jsStableSortBy asc key l) =
      (jsStableSortBy asc key l).reverse := by
  have hSymNe : ∀ {x y : Record}, key x ≠ key y → key y ≠ key x :=
    fun h he => h he.symm
  haveI : IsTotal Record (fun a b => jsSortRel asc key a b = true) :=
    ⟨jsSortRel_total asc key⟩
  haveI : IsTrans Record (fun a b => jsSortRel asc key a b = true) :=
    ⟨fun a b c => jsSortRel_trans asc key a b c⟩
  haveI : IsTotal Record (fun a b => jsSortRel (!asc) key a b = true) :=
    ⟨jsSortRel_total (!asc) key⟩
  haveI : IsTrans Record (fun a b => jsSortRel (!asc) key a b = true) :=
    ⟨fun a b c => jsSortRel_trans (!asc) key a b c⟩
  have h1 : (jsStableSortBy asc key l).Pairwise
      (fun a b => jsSortRel asc key a b = true) :=
    List.sorted_insertionSort _ l
  have h2 : (jsStableSortBy (!asc) key (jsStableSortBy asc key l)).Pairwise
      (fun a b => jsSortRel (!asc) key a b = true) :=
    List.sorted_insertionSort _ _
  have hp1 : List.Perm (jsStableSortBy asc key l) l := List.perm_insertionSort _ l
  have hp2 : List.Perm (jsStableSortBy (!asc) key (jsStableSortBy asc key l))
      (jsStableSortBy asc key l) := List.perm_insertionSort _ _
  have hd1 : (jsStableSortBy asc key l).Pairwise (fun a b => key a ≠ key b) :=
    (hp1.pairwise_iff fun h => hSymNe h).mpr hd
  have hd2 : (jsStableSortBy (!asc) key (jsStableSortBy asc key l)).Pairwise
      (fun a b => key a ≠ key b) :=
    (hp2.pairwise_iff fun h => hSymNe h).mpr hd1
  have hs2 : (jsStableSortBy (!asc) key (jsStableSortBy asc key l)).Pairwise
      (fun a b => jsSortRel (!asc) key a b = true ∧ key a ≠ key b) :=
    h2.and hd2
  have hrev : ((jsStableSortBy asc key l).reverse).Pairwise
      (fun a b => jsSortRel (!asc) key a b = true ∧ key a ≠ key b) := by
    rw [List.pairwise_reverse]
    exact (h1.and hd1).imp
      (fun h => ⟨by rw [jsSortRel_flip]; exact h.1, hSymNe h.2⟩)
  haveI : IsAntisymm Record
      (fun a b => jsSortRel (!asc) key a b = true ∧ key a ≠ key b) :=
    ⟨fun a b h h2x => absurd (jsSortRel_key_eq (!asc) key a b h.1 h2x.1) h.2⟩
  exact List.eq_of_perm_of_sorted (hp2.trans (List.reverse_perm _).symm) hs2 hrev

theorem SortingManager.sort_eq (st : SortState) (data : List Record)
    (c : Option Int) :
    SortingManager.sort st data c =
      if st.index == c then
        (jsStableSortBy (!st.asc) (sortKey c) data,
          ⟨st.index, !st.asc⟩)
      else (jsStableSortBy true (sortKey c) data, ⟨c, true⟩) := by
  unfold SortingManager.sort
  by_cases h : (st.index == c) = true <;> simp [h]


/-- Claim C6: for every record list whose stringified-and-lowercased values
on the chosen column are pairwise distinct, sorting by that column and then
sorting by the same column again returns the first result reversed exactly
(ascending and descending orders are mirror images). -/
theorem sort_same_column_twice_mirror (st : SortState) (l : List Record)
    (idx : Int)
    (hd : (l.map (sortKey (some idx))).Pairwise fun a b => a ≠ b) :
    (SortingManager.sort ((SortingManager.sort st l (some idx)).2)
        ((SortingManager.sort st l (some idx)).1) (some idx)).1 =
      ((SortingManager.sort st l (some idx)).1).reverse := by
  have hd2 : l.Pairwise fun a b => sortKey (some idx) a ≠ sortKey (some idx) b :=
    List.pairwise_map.mp hd
  by_cases h : (st.index == some idx) = true
  · simp only [SortingManager.sort_eq, h, if_true]
    exact jsStableSortBy_flip_reverse (!st.asc) _ l hd2
  · simp [SortingManager.sort_eq, h, -Bool.not_not]
    exact jsStableSortBy_flip_reverse true _ l hd2

/-- Witness for C6 at a concrete input: two records with distinct owners,
sorted twice by the owner column from the initial (no sort) state. -/
theorem sort_same_column_twice_mirror_witness :
    (SortingManager.sort ((SortingManager.sort ⟨none, true⟩ [recB, recA] (some 2)).2)
        ((SortingManager.sort ⟨none, true⟩ [recB, recA] (some 2)).1) (some 2)).1 =
      ((SortingManager.sort ⟨none, true⟩ [recB, recA] (some 2)).1).reverse :=
  sort_same_column_twice_mirror ⟨none, true⟩ [recB, recA] 2 (by decide)

/-- Claim C7: for every record list, calling the sort operation with a
null/unset column key returns the list in its input order: every record
keys to the empty string, the comparator reports a tie everywhere, and the
stable sort leaves the order unchanged. -/
theorem sort_null_column_keeps_order (st : SortState) (l : List Record) :
    (SortingManager.sort st l none).1 = l := by
  rw [SortingManager.sort_eq]
  by_cases h : (st.index == none) = true <;> simp only [h, if_true, if_false]
  · show jsStableSortBy (!st.asc) (sortKey none) l = l
    unfold jsStableSortBy
    exact List.Sorted.insertionSort_eq
      (pairwise_of_rel_total (fun a b => by cases st.asc <;> rfl) l)
  · show jsStableSortBy true (sortKey none) l = l
    unfold jsStableSortBy
    exact List.Sorted.insertionSort_eq
      (pairwise_of_rel_total (fun a b => rfl) l)

theorem applyToData_eq_filter (df : DropdownFilters) (data : List Record) :
    DropdownFilterManager.applyToData df data = data.filter (dropdownPasses df) := by
  unfold DropdownFilterManager.applyToData dropdownPasses
  by_cases h2 : df.owner.isEmpty <;> by_cases h3 : df.exception.isEmpty <;>
    by_cases h4 : df.status.isEmpty <;>
    simp [h2, h3, h4, List.filter_filter] <;>
    exact List.filter_congr fun a _ => by
      simp [Bool.and_comm, Bool.and_left_comm, Bool.and_assoc]

/-- Claim C2 (amended): `FilterManager.apply` returns exactly the records
that pass all three dropdown set filters (owner, exception, status) and all
stored text filters whose column key is 1 (`pk`) or 7 (`comment`); text
filters stored under any other column key are ignored by `apply`. -/
theorem filter_apply_characterization (textFilters : List (Int × String))
    (df : DropdownFilters) (data : List Record) :
    FilterManager.apply textFilters df data =
      data.filter fun r => dropdownPasses df r && textPasses textFilters r := by
  unfold FilterManager.apply textPasses
  rw [applyToData_eq_filter]
  by_cases hA : (textFilters.filter fun p => p.1 == 1 || p.1 == 7).isEmpty
  · rw [if_pos hA]
    have he : (textFilters.filter fun p => p.1 == 1 || p.1 == 7) = [] := by
      simpa [List.isEmpty_iff] using hA
    rw [he]
    simp
  · rw [if_neg hA, List.filter_filter]
    exact List.filter_congr fun a _ => by
      simp [Bool.and_comm, Bool.and_left_comm, Bool.and_assoc]

/-- Counterexample for claim C2: a text filter stored for the mapped owner
column (index 2) is an active constraint that the record fails, yet
`FilterManager.apply` keeps the record, because the text stage only reads
the filters for columns 1 and 7. -/
theorem filter_ignores_owner_text_filter :
    FilterManager.apply [((2 : Int), ("zz" : String))] ⟨[], [], []⟩ [recA] = [recA] ∧
    strIncludes (jsToLower recA.owner) ("zz") = false :=
  ⟨by decide, by decide⟩

/-- Counterexample for claim C4: an update object that itself carries an
`id` key overwrites the record's id, because the spread-merge
`{ ...item, ...updates }` lets patch keys win. -/
theorem update_patch_can_change_id :
    (DataManager.update [recA] ("A") patchNewId).1.map Record.id = [("B" : String)] ∧
    (("B" : String) ≠ ("A" : String)) :=
  ⟨by decide, by decide⟩

/-- Claim C4 (amended): for every record store state, every patch object
that does not itself contain an `id` key, and every id or id list,
`updateOne` and `updateMany` leave the `id` field of every record in the
store unchanged. -/
theorem updates_preserve_ids_of_id_free_patch (l : List Record) (anId : String)
    (ids : List String) (p : Patch) (hp : p.id = none) :
    (DataManager.update l anId p).1.map Record.id = l.map Record.id ∧
    (DataManager.bulkUpdate l ids p).1.map Record.id = l.map Record.id := by
  constructor
  · induction l with
    | nil => rfl
    | cons r rs ih =>
      unfold DataManager.update
      by_cases h : (r.id == anId) = true
      · rw [if_pos h]
        simp [mergePatch, hp]
      · rw [if_neg h]
        simpa using ih
  · unfold DataManager.bulkUpdate
    simp only [List.map_map]
    refine List.map_congr_left fun r _ => ?_
    by_cases h : r.id ∈ ids <;> simp [h, mergePatch, hp, Function.comp]

/-- Witness for the amended C4 at a concrete input: an id-free patch leaves
the ids of a one-record store unchanged under `update`. -/
theorem updates_preserve_ids_witness :
    (DataManager.update [recA] ("A") ({} : Patch)).1.map Record.id =
      [recA].map Record.id :=
  (updates_preserve_ids_of_id_free_patch [recA] ("A") [("A" : String)] {} rfl).1

/-- Claim C9: for every record store state, every patch, and every id not
matching any record in the store, `updateOne` leaves the record list
entirely unchanged and triggers no subscriber notification (the model is a
total function, so no error is raised either). -/
theorem update_unknown_id_noop (l : List Record) (anId : String) (p : Patch)
    (h : ∀ r ∈ l, r.id ≠ anId) :
    DataManager.update l anId p = (l, false) := by
  induction l with
  | nil => rfl
  | cons r rs ih =>
    unfold DataManager.update
    rw [if_neg (by simpa using h r (List.mem_cons_self r rs))]
    have hrest := ih fun x hx => h x (List.mem_cons_of_mem r hx)
    simp [hrest]

/-- Witness for C9 at a concrete input: updating a store that does not hold
id `Z` is a silent no-op. -/
theorem update_unknown_id_noop_witness :
    DataManager.update [recA] ("Z") ({} : Patch) = ([recA], false) :=
  update_unknown_id_noop [recA] ("Z") {} (by decide)

/-- Claim C10: for every record store state, id list and patch,
`updateMany` preserves the length of the record list and its positional
order (position `i` of the output holds the updated image of position `i`
of the input), and every record whose id is not in `ids` is left entirely
unchanged. -/
theorem bulkUpdate_frame (l : List Record) (ids : List String) (p : Patch) :
    (DataManager.bulkUpdate l ids p).1.length = l.length ∧
    (∀ i : Nat, ∀ r : Record, l[i]? = some r →
      (DataManager.bulkUpdate l ids p).1[i]? =
        some (if ids.contains r.id then mergePatch r p else r) ∧
      (ids.contains r.id = false →
        (DataManager.bulkUpdate l ids p).1[i]? = some r)) := by
  refine ⟨by simp [DataManager.bulkUpdate], fun i r hr => ⟨?_, fun hc => ?_⟩⟩
  · unfold DataManager.bulkUpdate
    simp [List.getElem?_map, hr]
  · unfold DataManager.bulkUpdate
    have hm : r.id ∉ ids := by simpa using hc
    simp [List.getElem?_map, hr, hm]

/-- Witness for C10 at a concrete input: a bulk update whose id list misses
the only record leaves position 0 untouched. -/
theorem bulkUpdate_frame_witness :
    (DataManager.bulkUpdate [recA] [("Z" : String)] patchNewId).1[0]? = some recA :=
  ((bulkUpdate_frame [recA] [("Z" : String)] patchNewId).2 0 recA rfl).2 rfl

/-- Claim C5: for every prior selection state and every id list (also empty
or disjoint from the selection), `setAll(ids, false)` followed by
`getSelected()` yields the empty set: the false branch runs
`selectedIds.clear()` regardless of which ids were passed. -/
theorem setAll_false_clears (st : SelectionState) (ids : List String) :
    SelectionManager.getSelected (SelectionManager.setAll st ids false) = [] :=
  rfl

/-- Claim C8: for every `totalItems` installed by `init` and every integer
`n`, `setPage(n)` returns `n` clamped into `[1, totalPages]`, where
`totalPages` is `ceil(totalItems / pageSize)` floored at 1; in particular
`getPaginationInfo().totalPages = 1` whenever `totalItems = 0`. -/
theorem setPage_clamps_and_totalPages (total : Nat) (n : Int) :
    ((1 : Int) ≤ (PaginationManager.setPage (PaginationManager.init total) n).2 ∧
      (PaginationManager.setPage (PaginationManager.init total) n).2 ≤
        (PaginationManager.getTotalPages (PaginationManager.init total) : Int) ∧
      (1 ≤ n →
        n ≤ (PaginationManager.getTotalPages (PaginationManager.init total) : Int) →
        (PaginationManager.setPage (PaginationManager.init total) n).2 = n)) ∧
    PaginationManager.getTotalPages (PaginationManager.init total) =
      max 1 ((total + itemsPerPage - 1) / itemsPerPage) ∧
    (total = 0 →
      (PaginationManager.getPaginationInfo
        (PaginationManager.init total)).totalPages = 1) := by
  have htp1 : 1 ≤ PaginationManager.getTotalPages (PaginationManager.init total) := by
    simp only [PaginationManager.getTotalPages, PaginationManager.init, itemsPerPage]
    split <;> omega
  have htp1i : (1 : Int) ≤ (PaginationManager.getTotalPages (PaginationManager.init total) : Int) := by
    exact_mod_cast htp1
  refine ⟨⟨?_, ?_, ?_⟩, ?_, ?_⟩
  · show (1 : Int) ≤
      max 1 (min n (PaginationManager.getTotalPages (PaginationManager.init total) : Int))
    omega
  · show max 1 (min n (PaginationManager.getTotalPages (PaginationManager.init total) : Int)) ≤
      (PaginationManager.getTotalPages (PaginationManager.init total) : Int)
    omega
  · intro h1 h2
    show max 1 (min n (PaginationManager.getTotalPages (PaginationManager.init total) : Int)) = n
    omega
  · simp only [PaginationManager.getTotalPages, PaginationManager.init, itemsPerPage]
    split <;> omega
  · intro h
    subst h
    decide

/-- Witness for C8 at a concrete input: with zero stored items,
`getPaginationInfo().totalPages` is 1. -/
theorem setPage_clamps_witness :
    (PaginationManager.getPaginationInfo (PaginationManager.init 0)).totalPages = 1 :=
  (setPage_clamps_and_totalPages 0 5).2.2 rfl

theorem jsOrElse_empty_eq_iff (o : Option String) (v : String) (hv : v ≠ "") :
    (jsOrElse o ("") = v) ↔ o = some v := by
  unfold jsOrElse jsTruthy
  rcases o with _ | s
  · simp [Ne.symm hv]
  · by_cases hs : s = ""
    · subst hs
      simp [Ne.symm hv]
    · simp [hs]

theorem transformItemV0_exception_iff (item : RawItem) :
    ((transformItemV0 item).exception = "NO") ↔
      (item.status = none ∨ item.status = some ("")) := by
  show (if jsTruthy item.status then ("") else ("NO")) = "NO" ↔ _
  unfold jsTruthy
  rcases item.status with _ | s
  · simp
  · by_cases hs : s = ""
    · subst hs
      simp
    · simp [hs]

/-- Claim C3 (amended): in the current revision (`src/js/app.js`) the
transform defaults every absent string field of the Record shape to the
empty string except `id`, which falls back to the generated fresh value
when both raw id fields are absent, and it copies `exception` from the raw
`exception` field — the result is `"NO"` only when the server itself sent
`"NO"`.  The `exception = "NO"`-when-`status`-absent policy exists only in
the earlier revision (`src/unnamed/part_000`), whose transform yields
`"NO"` exactly when the raw `status` is absent or empty. -/
theorem transform_defaults_and_exception_policy (fresh : String) (item : RawItem) :
    ((transformItem fresh item).exception = "NO" ↔ item.exception = some ("NO")) ∧
    (item.pk = none → (transformItem fresh item).pk = "") ∧
    (item.executor_name = none → item.owner = none →
      (transformItem fresh item).owner = "") ∧
    (item.status = none → (transformItem fresh item).status = "") ∧
    (item.master_incident_id = none →
      (transformItem fresh item).masterIncident = "") ∧
    (item.exception = none → (transformItem fresh item).exception = "") ∧
    (item.comment = none → (transformItem fresh item).comment = "") ∧
    (item.bd_table = none → (transformItem fresh item).bd_table = "") ∧
    (item.bd_table_attr = none → (transformItem fresh item).bd_table_attr = "") ∧
    (item.incident_record_id = none → item.id = none →
      (transformItem fresh item).id = fresh) ∧
    ((transformItemV0 item).exception = "NO" ↔
      (item.status = none ∨ item.status = some (""))) := by
  refine ⟨?_, ?_, ?_, ?_, ?_, ?_, ?_, ?_, ?_, ?_,
    transformItemV0_exception_iff item⟩
  · exact jsOrElse_empty_eq_iff item.exception ("NO") (by decide)
  · intro h
    show jsOrElse item.pk ("") = ""
    rw [h]; rfl
  · intro h1 h2
    show (if jsTruthy item.executor_name then item.executor_name.getD ("")
      else jsOrElse item.owner ("")) = ""
    rw [h1, h2]; rfl
  · intro h
    show jsOrElse item.status ("") = ""
    rw [h]; rfl
  · intro h
    show jsOrElse item.master_incident_id ("") = ""
    rw [h]; rfl
  · intro h
    show jsOrElse item.exception ("") = ""
    rw [h]; rfl
  · intro h
    show jsOrElse item.comment ("") = ""
    rw [h]; rfl
  · intro h
    show jsOrElse item.bd_table ("") = ""
    rw [h]; rfl
  · intro h
    show jsOrElse item.bd_table_attr ("") = ""
    rw [h]; rfl
  · intro h1 h2
    show (if jsTruthy item.incident_record_id then item.incident_record_id.getD ("")
      else if jsTruthy item.id then item.id.getD ("") else fresh) = fresh
    rw [h1, h2]; rfl

/-- Counterexample for claim C3: the current transform maps a raw record
with absent `status` (and absent `exception`) to `exception = ""`, not
`"NO"`. -/
theorem transform_absent_status_not_NO :
    emptyRawItem.status = none ∧
    (transformServerData ("0.42") [emptyRawItem]).map Record.exception =
      [("" : String)] ∧
    (("" : String) ≠ ("NO" : String)) :=
  ⟨rfl, rfl, by decide⟩

/-- Witness for the amended C3 at a concrete input: the all-absent raw item
transforms with `pk` defaulted to the empty string. -/
theorem transform_defaults_witness :
    (transformItem ("0.42") emptyRawItem).pk = "" :=
  (transform_defaults_and_exception_policy ("0.42") emptyRawItem).2.1 rfl

/-- Claim C1 evaluated at a failing input: with records `[A (owner a),
B (owner b)]`, no filters, the owner column (2) actively sorted ascending
and page 1 — and nothing changed externally between the runs — the first
pipeline run displays `[B, A]` while the immediately following second run
displays `[A, B]`: `applyFiltersAndUpdate` passes the active column back
into `SortingManager.sort`, whose toggle branch flips the stored direction
on every rerun, so consecutive runs are not equal. -/
theorem pipeline_rerun_flips_page :
    (EventHandlers.applyFiltersAndUpdate pipelineDemoState).1 = [recB, recA] ∧
    (EventHandlers.applyFiltersAndUpdate
        (EventHandlers.applyFiltersAndUpdate pipelineDemoState).2).1 =
      [recA, recB] ∧
    ([recB, recA] : List Record) ≠ [recA, recB] :=
  ⟨by decide, by decide, by decide⟩
